import Mathlib

/-!
Shallow embedding of the ride-sharing domain model from `src/c++/main.cpp`.

Modelling conventions:
- C++ `double` fields (distances, fares, ratings) are embedded as `ℚ`; the
  rates 1.50 and 3.00 and all demonstration inputs are exactly representable.
- `throw std::invalid_argument(msg)` becomes `Except.error (DomainError.invalidArgument msg)`;
  constructors and mutators are functions into `Except DomainError _`.
- A `std::shared_ptr<Ride>` argument that may be null is an `Option Ride`;
  storing the shared reference is modelled by storing the `Ride` value itself
  (the program never mutates a ride after it is stored, so value semantics
  coincide with reference semantics for every property below).
- The virtual dispatch over `StandardRide` / `PremiumRide` is a `RideKind`
  tag carried by the `Ride` record; `calculateFare` and the `rideDetails`
  suffix branch on it exactly as the two overrides do.
- Console output (`std::cout << ...`) is modelled as construction of the
  emitted `String`, with `std::endl` as `"\n"`.
-/

namespace RideSharing

/-- Error kind: every `throw` in the source raises `std::invalid_argument`. -/
inductive DomainError where
  | invalidArgument (msg : String)
deriving DecidableEq

/-- The concrete subclass of `Ride` chosen at construction time. -/
inductive RideKind where
  | standard
  | premium
deriving DecidableEq

/-- State of a `Ride` object: the protected fields of the C++ class plus the
dynamic-type tag. -/
structure Ride where
  kind : RideKind
  rideID : Int
  pickupLocation : String
  dropoffLocation : String
  distance : ℚ
  fare : ℚ
deriving DecidableEq

/-- `Ride::Ride(id, pickup, dropoff, dist)`: initialises the fields with
`fare = 0.0` and throws `std::invalid_argument` when `dist <= 0`. -/
def Ride.construct (kind : RideKind) (id : Int) (pickup dropoff : String)
    (dist : ℚ) : Except DomainError Ride :=
  if dist ≤ 0 then
    Except.error (DomainError.invalidArgument "Distance must be greater than 0")
  else
    Except.ok { kind := kind, rideID := id, pickupLocation := pickup,
                dropoffLocation := dropoff, distance := dist, fare := 0 }

/-- `StandardRide::StandardRide`: delegates to the `Ride` base constructor. -/
def StandardRide.construct (id : Int) (pickup dropoff : String) (dist : ℚ) :
    Except DomainError Ride :=
  Ride.construct RideKind.standard id pickup dropoff dist

/-- `PremiumRide::PremiumRide`: delegates to the `Ride` base constructor. -/
def PremiumRide.construct (id : Int) (pickup dropoff : String) (dist : ℚ) :
    Except DomainError Ride :=
  Ride.construct RideKind.premium id pickup dropoff dist

/-- The per-mile rate of each override of `calculateFare`:
`StandardRide` uses `1.50`, `PremiumRide` uses `3.00`. -/
def RideKind.rate : RideKind → ℚ
  | RideKind.standard => 1.50
  | RideKind.premium => 3.00

/-- Virtual `calculateFare()`: `fare = distance * 1.50` in `StandardRide`,
`fare = distance * 3.00` in `PremiumRide`. -/
def Ride.calculateFare (r : Ride) : Ride :=
  { r with fare := r.distance * r.kind.rate }

/-- The suffix label each `rideDetails` override appends:
`" (Standard Ride)"` resp. `" (Premium Ride)"`. -/
def RideKind.label : RideKind → String
  | RideKind.standard => "Standard Ride"
  | RideKind.premium => "Premium Ride"

end RideSharing

/-- Left-pads the decimal digits of `n` with zeros up to width `len`
(helper for fixed-precision stream output). -/
def padLeftZeros (n : Nat) (len : Nat) : String :=
  let s := toString n
  String.mk (List.replicate (len - s.length) '0') ++ s

/-- Drops trailing `'0'` characters (helper for default stream output of
a double with a fractional part). -/
def stripTrailingZeros (s : String) : String :=
  String.mk (List.dropWhile (fun c => c = '0') s.data.reverse).reverse

/-- Models `std::cout << x` for a double under `std::fixed` and
`std::setprecision(2)`: sign, integer part, and exactly two fractional
digits, the value rounded to the nearest hundredth. -/
def fmtFixed2 (q : ℚ) : String :=
  let sign := if q < 0 then "-" else ""
  let cents : Int := round (|q| * 100)
  sign ++ toString (cents / 100) ++ "." ++ padLeftZeros (cents % 100).toNat 2

/-- Models the default `std::cout << x` formatting of a double (`%g`, six
significant digits, no exponent range needed for this program's values):
an integral value prints with no decimal point, otherwise the fractional
digits print with trailing zeros removed. -/
def fmtDefault (q : ℚ) : String :=
  let sign := if q < 0 then "-" else ""
  let a := |q|
  let prec : Nat := 6 - min 6 (toString a.floor.toNat).length
  let scaled : Nat := (round (a * (10 : ℚ) ^ prec)).toNat
  let ip := scaled / 10 ^ prec
  let fp := scaled % 10 ^ prec
  if fp = 0 then sign ++ toString ip
  else sign ++ toString ip ++ "." ++ stripTrailingZeros (padLeftZeros fp prec)

namespace RideSharing

/-- Base `Ride::rideDetails()`: the five `<<`-chained pieces up to the fare
(no variant suffix, no trailing newline). -/
def Ride.rideDetailsBase (r : Ride) : String :=
  "Ride ID: " ++ toString r.rideID
    ++ "\nPickup: " ++ r.pickupLocation
    ++ "\nDropoff: " ++ r.dropoffLocation
    ++ "\nDistance: " ++ fmtDefault r.distance ++ " miles"
    ++ "\nFare: $" ++ fmtFixed2 r.fare

/-- Virtual `rideDetails()` as overridden in both subclasses: the base output
followed by `" (<label>)"` and `std::endl`. -/
def Ride.rideDetails (r : Ride) : String :=
  r.rideDetailsBase ++ " (" ++ r.kind.label ++ ")" ++ "\n"

/-- State of a `Driver` object. -/
structure Driver where
  driverID : Int
  name : String
  rating : ℚ
  assignedRides : List Ride
deriving DecidableEq

/-- `Driver::Driver(id, name, rating)`: throws `std::invalid_argument` when
`rating < 0 || rating > 5`; the ride history starts empty. -/
def Driver.construct (id : Int) (name : String) (rating : ℚ) :
    Except DomainError Driver :=
  if rating < 0 ∨ rating > 5 then
    Except.error (DomainError.invalidArgument "Rating must be between 0 and 5")
  else
    Except.ok { driverID := id, name := name, rating := rating, assignedRides := [] }

/-- `Driver::addRide(ride)`: throws `std::invalid_argument` on a null
pointer, otherwise `assignedRides.push_back(ride)`. -/
def Driver.addRide (d : Driver) (ride : Option Ride) : Except DomainError Driver :=
  match ride with
  | none => Except.error (DomainError.invalidArgument "Invalid ride pointer")
  | some r => Except.ok { d with assignedRides := d.assignedRides ++ [r] }

/-- `assignedRides.size()`: the completed-rides count is the history length,
recomputed from the sequence. -/
def Driver.completedRides (d : Driver) : Nat :=
  d.assignedRides.length

/-- `Driver::getDriverInfo()`: the driver info record emitted to the stream. -/
def Driver.getDriverInfo (d : Driver) : String :=
  "Driver ID: " ++ toString d.driverID
    ++ "\nName: " ++ d.name
    ++ "\nRating: " ++ fmtFixed2 d.rating
    ++ "\nCompleted Rides: " ++ toString d.completedRides ++ "\n"

/-- Runs a sequence of `addRide` calls the way the demonstration `main`
would: a throwing call is caught by the caller and leaves the driver as it
was; a successful call continues from the updated driver. -/
def Driver.runAddRides (d : Driver) (calls : List (Option Ride)) : Driver :=
  calls.foldl
    (fun acc c =>
      match acc.addRide c with
      | Except.ok d' => d'
      | Except.error _ => acc)
    d

/-- State of a `Rider` object. -/
structure Rider where
  riderID : Int
  name : String
  requestedRides : List Ride
deriving DecidableEq

/-- `Rider::Rider(id, name)`: no validation; the history starts empty. -/
def Rider.construct (id : Int) (name : String) : Rider :=
  { riderID := id, name := name, requestedRides := [] }

/-- `Rider::requestRide(ride)`: throws `std::invalid_argument` on a null
pointer, otherwise `requestedRides.push_back(ride)`. -/
def Rider.requestRide (r : Rider) (ride : Option Ride) : Except DomainError Rider :=
  match ride with
  | none => Except.error (DomainError.invalidArgument "Invalid ride pointer")
  | some ri => Except.ok { r with requestedRides := r.requestedRides ++ [ri] }

/-- `Rider::viewRides()`: the header lines, then either the sentinel message
(on an empty history) or a loop emitting each ride's `rideDetails()`. -/
def Rider.viewRides (r : Rider) : String :=
  let header := "Rider ID: " ++ toString r.riderID
    ++ "\nName: " ++ r.name
    ++ "\nRequested Rides History:" ++ "\n"
  if r.requestedRides.isEmpty then
    header ++ "No rides requested yet." ++ "\n"
  else
    r.requestedRides.foldl (fun out ride => out ++ ride.rideDetails) header

/-- The Ride record shape given in section 6 of the spec, written from the
spec's words (five labelled lines, fare to 2 decimals, variant label):
the refinement target to compare with `Ride.rideDetails`. -/
def specRideRecord (r : Ride) : String :=
  "Ride ID: " ++ toString r.rideID ++ "\n"
    ++ "Pickup: " ++ r.pickupLocation ++ "\n"
    ++ "Dropoff: " ++ r.dropoffLocation ++ "\n"
    ++ "Distance: " ++ fmtDefault r.distance ++ " miles" ++ "\n"
    ++ "Fare: $" ++ fmtFixed2 r.fare ++ " (" ++ r.kind.label ++ ")" ++ "\n"

end RideSharing

namespace RideSharing

/-! ### Helper lemmas -/

theorem strAppend_assoc (a b c : String) : a ++ b ++ c = a ++ (b ++ c) := by
  simp [String.ext_iff]

theorem strJoin_cons (s : String) (ss : List String) :
    String.join (s :: ss) = s ++ String.join ss := by
  simp [String.join_eq, String.ext_iff]

theorem runAddRides_cons (d : Driver) (c : Option Ride) (cs : List (Option Ride)) :
    Driver.runAddRides d (c :: cs)
      = Driver.runAddRides
          (match Driver.addRide d c with
           | Except.ok d' => d'
           | Except.error _ => d) cs := rfl

theorem runAddRides_assignedRides (d : Driver) (calls : List (Option Ride)) :
    (Driver.runAddRides d calls).assignedRides
      = d.assignedRides ++ calls.filterMap id := by
  induction calls generalizing d with
  | nil => simp [Driver.runAddRides]
  | cons c cs ih =>
    rw [runAddRides_cons]
    cases c with
    | none => simpa [Driver.addRide, List.filterMap_cons] using ih d
    | some r =>
      rw [List.filterMap_cons]
      simpa [Driver.addRide, List.append_assoc] using
        ih { d with assignedRides := d.assignedRides ++ [r] }

theorem length_filterMap_id_countP (l : List (Option Ride)) :
    (l.filterMap id).length = l.countP (fun o => o.isSome) := by
  induction l with
  | nil => rfl
  | cons c cs ih => cases c <;> simp [List.filterMap_cons, List.countP_cons, ih]

theorem foldl_append_details (l : List Ride) (init : String) :
    l.foldl (fun out ride => out ++ ride.rideDetails) init
      = init ++ String.join (l.map Ride.rideDetails) := by
  induction l generalizing init with
  | nil => simp [String.join]
  | cons r rs ih =>
    rw [List.foldl_cons, ih, List.map_cons, strJoin_cons, strAppend_assoc]

/-! ### Claim theorems -/

/-- C1: For every distance d > 0, constructing a StandardRide with distance d
and then invoking CalculateFare sets its fare to 1.50 × d, and constructing a
PremiumRide with distance d and then invoking CalculateFare sets its fare to
3.00 × d. -/
theorem fare_rates (d : ℚ) (hd : 0 < d) (id : Int) (pu dof : String) :
    (StandardRide.construct id pu dof d).map (fun r => (Ride.calculateFare r).fare)
      = Except.ok (1.50 * d)
    ∧ (PremiumRide.construct id pu dof d).map (fun r => (Ride.calculateFare r).fare)
      = Except.ok (3.00 * d) := by
  have hd' : ¬ d ≤ 0 := not_le.mpr hd
  constructor <;>
    simp [StandardRide.construct, PremiumRide.construct, Ride.construct, hd',
      Except.map, Ride.calculateFare, RideKind.rate, mul_comm]

/-- Witness for C1: at distance 5 the standard fare is 7.50 and the premium
fare is 15.00, by `fare_rates` applied at d = 5. -/
theorem fare_rates_witness :
    (0 : ℚ) < 5
    ∧ ((StandardRide.construct 1 "Home" "Work" 5).map
          (fun r => (Ride.calculateFare r).fare) = Except.ok (1.50 * 5)
       ∧ (PremiumRide.construct 1 "Home" "Work" 5).map
          (fun r => (Ride.calculateFare r).fare) = Except.ok (3.00 * 5)) :=
  ⟨by norm_num, fare_rates 5 (by norm_num) 1 "Home" "Work"⟩

/-- C2: Ride construction fails with InvalidArgument iff distance ≤ 0; when
distance > 0 it succeeds and the new ride's fare is 0. -/
theorem ride_construct_spec (kind : RideKind) (id : Int) (pu dof : String) (d : ℚ) :
    (Ride.construct kind id pu dof d
        = Except.error (DomainError.invalidArgument "Distance must be greater than 0")
      ↔ d ≤ 0)
    ∧ (0 < d → ∃ r, Ride.construct kind id pu dof d = Except.ok r ∧ r.fare = 0) := by
  unfold Ride.construct
  constructor
  · constructor
    · intro h
      by_contra hd
      rw [if_neg hd] at h
      exact absurd h (by simp)
    · intro h
      rw [if_pos h]
  · intro h
    rw [if_neg (not_le.mpr h)]
    exact ⟨_, rfl, rfl⟩

/-- Witness for C2: constructing a ride with distance −5 fails with the
invalid-argument error, by `ride_construct_spec`. -/
theorem ride_construct_spec_witness :
    Ride.construct RideKind.standard 9 "Start" "End" (-5)
      = Except.error (DomainError.invalidArgument "Distance must be greater than 0") :=
  (ride_construct_spec RideKind.standard 9 "Start" "End" (-5)).1.mpr (by norm_num)

/-- C3: Driver construction with rating r succeeds if 0 ≤ r ≤ 5 and fails
with InvalidArgument if r < 0 or r > 5. -/
theorem driver_construct_spec (id : Int) (name : String) (rating : ℚ) :
    ((0 ≤ rating ∧ rating ≤ 5) → ∃ dr, Driver.construct id name rating = Except.ok dr)
    ∧ ((rating < 0 ∨ rating > 5) →
        Driver.construct id name rating
          = Except.error (DomainError.invalidArgument "Rating must be between 0 and 5")) := by
  unfold Driver.construct
  constructor
  · rintro ⟨h0, h5⟩
    rw [if_neg (by push_neg; exact ⟨h0, h5⟩)]
    exact ⟨_, rfl⟩
  · intro h
    rw [if_pos h]

/-- Witness for C3: rating 4.8 is accepted and rating 6.0 is rejected, by
`driver_construct_spec`. -/
theorem driver_construct_spec_witness :
    (∃ dr, Driver.construct 101 "John Doe" 4.8 = Except.ok dr)
    ∧ Driver.construct 102 "Invalid" 6.0
        = Except.error (DomainError.invalidArgument "Rating must be between 0 and 5") :=
  ⟨(driver_construct_spec 101 "John Doe" 4.8).1 (by norm_num),
   (driver_construct_spec 102 "Invalid" 6.0).2 (Or.inr (by norm_num))⟩

/-- C4: AddRide and RequestRide fail with InvalidArgument exactly when the
ride argument is null (leaving the caller's history untouched, since no
updated object is produced); when the ride is non-null it is appended at the
end of the history, all other fields unchanged. -/
theorem addRide_requestRide_spec (d : Driver) (ri : Rider) (ride : Option Ride) :
    (Driver.addRide d ride
        = Except.error (DomainError.invalidArgument "Invalid ride pointer")
      ↔ ride = none)
    ∧ (Rider.requestRide ri ride
        = Except.error (DomainError.invalidArgument "Invalid ride pointer")
      ↔ ride = none)
    ∧ (∀ r, ride = some r →
        Driver.addRide d ride
            = Except.ok { d with assignedRides := d.assignedRides ++ [r] }
          ∧ Rider.requestRide ri ride
            = Except.ok { ri with requestedRides := ri.requestedRides ++ [r] }) := by
  cases ride <;> simp [Driver.addRide, Rider.requestRide]

/-- C7: Invoking CalculateFare twice in succession yields the same ride state
(and hence the same fare) as invoking it once. -/
theorem calculateFare_idem (r : Ride) :
    (r.calculateFare).calculateFare = r.calculateFare := rfl

end RideSharing

namespace RideSharing

/-- Witness for C4: AddRide on the null ride fails with the invalid-argument
error, by `addRide_requestRide_spec`. -/
theorem addRide_requestRide_spec_witness :
    Driver.addRide ⟨101, "John Doe", 4.8, []⟩ none
      = Except.error (DomainError.invalidArgument "Invalid ride pointer") :=
  (addRide_requestRide_spec ⟨101, "John Doe", 4.8, []⟩
    ⟨201, "Alice", []⟩ none).1.mpr rfl

/-- C5: Starting from an empty history, the "Completed Rides" count reported
by DescribeInfo after a sequence of AddRide calls equals the number of calls
that succeeded: non-null rides (duplicates included) are each counted, null
rides are rejected and not counted. -/
theorem completedRides_counts_successes (d : Driver) (calls : List (Option Ride))
    (h : d.assignedRides = []) :
    (Driver.runAddRides d calls).completedRides
        = calls.countP (fun o => o.isSome)
    ∧ ∃ s, (Driver.runAddRides d calls).getDriverInfo
        = s ++ ("Completed Rides: "
            ++ toString (calls.countP (fun o => o.isSome)) ++ "\n") := by
  have hcount : (Driver.runAddRides d calls).completedRides
      = calls.countP (fun o => o.isSome) := by
    rw [Driver.completedRides, runAddRides_assignedRides, h]
    simpa using length_filterMap_id_countP calls
  refine ⟨hcount, ⟨"Driver ID: " ++ toString (Driver.runAddRides d calls).driverID
    ++ "\nName: " ++ (Driver.runAddRides d calls).name
    ++ "\nRating: " ++ fmtFixed2 (Driver.runAddRides d calls).rating ++ "\n", ?_⟩⟩
  rw [Driver.getDriverInfo, hcount]
  simp only [strAppend_assoc]
  have hsplit : ("\nCompleted Rides: " : String) = "\n" ++ "Completed Rides: " := rfl
  rw [hsplit, strAppend_assoc]

/-- Witness for C5: two successful adds of the same ride around one rejected
null give a count of 2, by `completedRides_counts_successes`. -/
theorem completedRides_counts_successes_witness :
    (Driver.runAddRides ⟨101, "John Doe", 4.8, []⟩
        [some ⟨RideKind.standard, 3, "Downtown", "Mall", 3, 0⟩, none,
         some ⟨RideKind.standard, 3, "Downtown", "Mall", 3, 0⟩]).completedRides = 2 :=
  ((completedRides_counts_successes ⟨101, "John Doe", 4.8, []⟩
      [some ⟨RideKind.standard, 3, "Downtown", "Mall", 3, 0⟩, none,
       some ⟨RideKind.standard, 3, "Downtown", "Mall", 3, 0⟩] rfl).1).trans (by decide)

/-- C6: ViewRides produces the header plus the literal
"No rides requested yet." message when the rider's history is empty, and
otherwise the header plus the concatenation of each held ride's Describe
output in insertion order. -/
theorem viewRides_spec (r : Rider) :
    Rider.viewRides r
      = ("Rider ID: " ++ toString r.riderID ++ "\nName: " ++ r.name
          ++ "\nRequested Rides History:" ++ "\n")
        ++ (if r.requestedRides = [] then "No rides requested yet." ++ "\n"
            else String.join (r.requestedRides.map Ride.rideDetails)) := by
  unfold Rider.viewRides
  by_cases h : r.requestedRides = []
  · rw [if_pos (by simpa [List.isEmpty_iff] using h), if_pos h]
    simp only [strAppend_assoc]
  · rw [if_neg (by simpa [List.isEmpty_iff] using h), if_neg h, foldl_append_details]

/-- C8: CalculateFare mutates only the fare field (id, pickup, dropoff,
distance and the variant tag are unchanged); the fare is 0 at construction,
and recording a ride with a Driver or Rider stores it unchanged (in
particular its fare), so no operation other than CalculateFare changes it. -/
theorem calculateFare_frame (r : Ride) (kind : RideKind) (id : Int) (pu dof : String)
    (dist : ℚ) (d : Driver) (ri : Rider) :
    ((r.calculateFare).rideID = r.rideID
      ∧ (r.calculateFare).pickupLocation = r.pickupLocation
      ∧ (r.calculateFare).dropoffLocation = r.dropoffLocation
      ∧ (r.calculateFare).distance = r.distance
      ∧ (r.calculateFare).kind = r.kind)
    ∧ (∀ r0, Ride.construct kind id pu dof dist = Except.ok r0 → r0.fare = 0)
    ∧ (∀ d', Driver.addRide d (some r) = Except.ok d' →
        d'.assignedRides.getLast? = some r)
    ∧ (∀ ri', Rider.requestRide ri (some r) = Except.ok ri' →
        ri'.requestedRides.getLast? = some r) := by
  refine ⟨⟨rfl, rfl, rfl, rfl, rfl⟩, ?_, ?_, ?_⟩
  · intro r0 h
    unfold Ride.construct at h
    by_cases hd : dist ≤ 0
    · rw [if_pos hd] at h
      exact absurd h (by simp)
    · rw [if_neg hd] at h
      cases h
      rfl
  · intro d' h
    unfold Driver.addRide at h
    cases h
    simp
  · intro ri' h
    unfold Rider.requestRide at h
    cases h
    simp

/-- Witness for C8: the freshly constructed ride has fare 0, by the second
conjunct of `calculateFare_frame` at concrete inputs. -/
theorem calculateFare_frame_witness :
    (⟨RideKind.standard, 1, "Home", "Work", 5, 0⟩ : Ride).fare = 0 :=
  (calculateFare_frame ⟨RideKind.standard, 1, "Home", "Work", 5, 0⟩
      RideKind.standard 1 "Home" "Work" 5
      ⟨101, "John Doe", 4.8, []⟩ ⟨201, "Alice", []⟩).2.1
    ⟨RideKind.standard, 1, "Home", "Work", 5, 0⟩ rfl

/-- C9: Describe produces exactly the record shape of the spec — the lines
"Ride ID:", "Pickup:", "Dropoff:", "Distance: ... miles" and
"Fare: $... (<Variant> Ride)" with the fare rendered to 2 decimal places —
and the variant label is "Standard Ride" or "Premium Ride". -/
theorem rideDetails_matches_spec (r : Ride) :
    Ride.rideDetails r = specRideRecord r
    ∧ (r.kind.label = "Standard Ride" ∨ r.kind.label = "Premium Ride") := by
  constructor
  · have h1 : ("\nPickup: " : String) = "\n" ++ "Pickup: " := rfl
    have h2 : ("\nDropoff: " : String) = "\n" ++ "Dropoff: " := rfl
    have h3 : ("\nDistance: " : String) = "\n" ++ "Distance: " := rfl
    have h4 : ("\nFare: $" : String) = "\n" ++ "Fare: $" := rfl
    unfold Ride.rideDetails Ride.rideDetailsBase specRideRecord
    rw [h1, h2, h3, h4]
    simp [strAppend_assoc]
  · cases hk : r.kind <;> simp [RideKind.label]

/-- C10: AddRide and RequestRide both accept a ride on which CalculateFare
has never run: a freshly constructed ride still has fare 0, is appended to
the driver's history — raising the completed-rides count by one — and is
likewise appended to the rider's history; no operation checks that the fare
has been computed. -/
theorem uncalculated_ride_accepted (kind : RideKind) (id : Int) (pu dof : String)
    (dist : ℚ) (hd : 0 < dist) (d : Driver) (ri : Rider) :
    ∃ r, Ride.construct kind id pu dof dist = Except.ok r
      ∧ r.fare = 0
      ∧ (∃ d', Driver.addRide d (some r) = Except.ok d'
          ∧ d'.assignedRides = d.assignedRides ++ [r]
          ∧ d'.completedRides = d.completedRides + 1)
      ∧ (∃ ri', Rider.requestRide ri (some r) = Except.ok ri'
          ∧ ri'.requestedRides = ri.requestedRides ++ [r]) := by
  have hd' : ¬ dist ≤ 0 := not_le.mpr hd
  refine ⟨{ kind := kind, rideID := id, pickupLocation := pu,
            dropoffLocation := dof, distance := dist, fare := 0 },
    ?_, rfl, ⟨_, rfl, rfl, ?_⟩, ⟨_, rfl, rfl⟩⟩
  · unfold Ride.construct
    rw [if_neg hd']
  · simp [Driver.completedRides]

/-- Witness for C10: a never-calculated 5-mile standard ride is accepted by
both AddRide and RequestRide and counted, by `uncalculated_ride_accepted`
at concrete inputs. -/
theorem uncalculated_ride_accepted_witness :
    (0 : ℚ) < 5
    ∧ ∃ r, Ride.construct RideKind.standard 1 "Home" "Work" 5 = Except.ok r
      ∧ r.fare = 0
      ∧ (∃ d', Driver.addRide ⟨101, "John Doe", 4.8, []⟩ (some r) = Except.ok d'
          ∧ d'.assignedRides = (⟨101, "John Doe", 4.8, []⟩ : Driver).assignedRides ++ [r]
          ∧ d'.completedRides = (⟨101, "John Doe", 4.8, []⟩ : Driver).completedRides + 1)
      ∧ (∃ ri', Rider.requestRide ⟨201, "Alice", []⟩ (some r) = Except.ok ri'
          ∧ ri'.requestedRides = (⟨201, "Alice", []⟩ : Rider).requestedRides ++ [r]) :=
  ⟨by norm_num,
   uncalculated_ride_accepted RideKind.standard 1 "Home" "Work" 5 (by norm_num)
     ⟨101, "John Doe", 4.8, []⟩ ⟨201, "Alice", []⟩⟩

end RideSharing
